import Mathlib

/-!
Verification development for the ticket-printer check-in client
(repository mccannical/ticket-printer).

The definitions below are a shallow embedding of the core check-in
pipeline of `src/checkin/checkin.py` (the defensive, validated variant),
together with the helpers it uses from `src/env_info.py` and
`src/schema_utils.py`:

* JSON values, the outbound payload schema `PAYLOAD_SCHEMA`, and
  `validate_schema` (the semantics of the jsonschema keywords
  `type` / `properties` / `required` on this schema);
* `build_checkin_payload` (the payload builder, with the build-time clock
  made an explicit parameter);
* the persistent-identity logic of `get_printer_uuid`, over an explicit
  filesystem state in which each primitive operation can fail;
* the urllib3 retry loop configured by `_build_retrying_session`
  (`Retry(total := 3, status_forcelist := (429,500,502,503,504),
  allowed_methods := ("GET","POST"))`) and the exception-capturing
  `post_payload`;
* the orchestration of `main` from payload build to delivery.

Theorems named `C1` .. `C10` (with `_amended` / `_counterexample` /
`_witness` suffixes) settle the corresponding specification claims.
-/

namespace TicketPrinter

/-! ## JSON values and dictionaries -/

/-- JSON values, restricted to the shapes the check-in pipeline produces:
`None` (Python), strings, integers and objects. Objects are association
lists looked up first-match, mirroring Python dict lookup. -/
inductive Json where
  | null : Json
  | str (s : String) : Json
  | int (n : Int) : Json
  | obj (fields : List (String × Json)) : Json

/-- First-match lookup in an association list, the semantics of
`d[k]` / `k in d` on a Python dict rendered as a field list. -/
def jlookup : List (String × Json) → String → Option Json
  | [], _ => none
  | (k, v) :: rest, key => if k = key then some v else jlookup rest key

/-- Python `dict.get(k)`: the stored value, or `None` when absent. -/
def dictGet (env : List (String × Json)) (k : String) : Json :=
  (jlookup env k).getD Json.null

/-! ## Payload schema and validation (`src/src/schema_utils.py`,
`PAYLOAD_SCHEMA` in `src/checkin/checkin.py` lines 90-99) -/

/-- The primitive JSON-schema types used by `PAYLOAD_SCHEMA`. -/
inductive JType where
  | jstring : JType
  | jinteger : JType
  deriving Repr, DecidableEq

/-- A schema of the form
`{type: object, properties: {...}, required: [...]}` — the only shape of
schema the program ever validates against. -/
structure ObjectSchema where
  properties : List (String × JType)
  required : List String
  deriving Repr

/-- `PAYLOAD_SCHEMA` from `src/checkin/checkin.py`: four typed properties,
all four required. -/
def PAYLOAD_SCHEMA : ObjectSchema :=
  { properties :=
      [ ("printer_uuid", JType.jstring)
      , ("external_ip", JType.jstring)
      , ("status", JType.jstring)
      , ("last_checkin", JType.jinteger) ]
  , required := ["printer_uuid", "external_ip", "status", "last_checkin"] }

/-- The jsonschema `type` keyword on a property value. -/
def typeOk : JType → Json → Bool
  | JType.jstring, Json.str _ => true
  | JType.jinteger, Json.int _ => true
  | _, _ => false

/-- The jsonschema `properties` keyword: every listed property that is
present must have the listed type; absent properties are skipped, and
fields not listed in `properties` are not constrained at all. -/
def checkProps (fields : List (String × Json)) : List (String × JType) → Except String Unit
  | [] => Except.ok ()
  | (k, t) :: rest =>
    match jlookup fields k with
    | none => checkProps fields rest
    | some v =>
      if typeOk t v then checkProps fields rest
      else Except.error (k ++ " is not of the required type")

/-- The jsonschema `required` keyword: every listed key must be present. -/
def checkRequired (fields : List (String × Json)) : List String → Except String Unit
  | [] => Except.ok ()
  | k :: rest =>
    match jlookup fields k with
    | some _ => checkRequired fields rest
    | none => Except.error (k ++ " is a required property")

/-- `validate_schema(payload, schema)` from `src/src/schema_utils.py`:
`jsonschema.validate` on a `type: object / properties / required` schema.
Success is `Except.ok ()`; a raised `ValidationError` is `Except.error`
carrying a message identifying the violated constraint. -/
def validate_schema (payload : Json) (schema : ObjectSchema) : Except String Unit :=
  match payload with
  | Json.obj fields =>
    match checkProps fields schema.properties with
    | Except.error e => Except.error e
    | Except.ok _ => checkRequired fields schema.required
  | _ => Except.error "payload is not of type object"

/-! ## Environment snapshot (`src/src/env_info.py`) -/

/-- The snapshot returned by `gather_env_info`: always exactly the three
keys `external_ip`, `last_checkin`, `printer_status`, each a string
(errors are encoded as error strings, never as missing keys). -/
structure EnvironmentSnapshot where
  external_ip : String
  last_checkin : String
  printer_status : String
  deriving Repr, DecidableEq

/-- The dict literal `gather_env_info` builds, in source order. -/
def envToDict (snap : EnvironmentSnapshot) : List (String × Json) :=
  [ ("external_ip", Json.str snap.external_ip)
  , ("last_checkin", Json.str snap.last_checkin)
  , ("printer_status", Json.str snap.printer_status) ]

/-! ## Payload construction (`build_checkin_payload`,
`src/checkin/checkin.py` lines 247-254) -/

/-- `build_checkin_payload(env_info, printer_uuid)`. The call
`int(time.time())` is modelled by the explicit build-time clock `now`. -/
def build_checkin_payload (env_info : List (String × Json))
    (printer_uuid : String) (now : Int) : Json :=
  Json.obj
    [ ("printer_uuid", Json.str printer_uuid)
    , ("external_ip", dictGet env_info "external_ip")
    , ("status", dictGet env_info "printer_status")
    , ("last_checkin", Json.int now) ]

/-! ## Persistent identity (`get_printer_uuid`,
`src/checkin/checkin.py` lines 194-244) -/

/-- Python `str.strip()` whitespace test for the ASCII whitespace
characters (space, tab, newline, carriage return, vertical tab,
form feed). -/
def isPyWhitespace (c : Char) : Bool :=
  c = ' ' || c = '\t' || c = '\n' || c = '\r' || c = '\x0b' || c = '\x0c'

/-- Python `str.strip()`: drop leading and trailing whitespace. -/
def pyStrip (s : String) : String :=
  String.mk (((s.toList.dropWhile isPyWhitespace).reverse.dropWhile isPyWhitespace).reverse)

/-- The state of the identity storage location: the config directory, the
`printer_uuid.txt` file, and per-operation fault flags. A `true` fault
flag makes the corresponding OS call raise, modelling an unwritable or
otherwise failing filesystem. Permission bits are plain naturals
(0o700 = 448, 0o600 = 384, 0o077 = 63). -/
structure FSState where
  dirExists : Bool
  dirMode : Nat
  fileContent : Option String
  fileMode : Nat
  mkdirFails : Bool
  chmodDirFails : Bool
  statFails : Bool
  readFails : Bool
  writeFails : Bool
  chmodFileFails : Bool
  deriving Repr, DecidableEq

/-- A healthy storage location (directory present with mode 0o700, no
operation failing) holding the given file content. -/
def readyFS (content : Option String) : FSState :=
  { dirExists := true, dirMode := 448, fileContent := content, fileMode := 384,
    mkdirFails := false, chmodDirFails := false, statFails := false,
    readFails := false, writeFails := false, chmodFileFails := false }

/-- A fully failing storage location: no directory, no file, and every
filesystem operation raises. -/
def brokenFS : FSState :=
  { dirExists := false, dirMode := 0, fileContent := none, fileMode := 0,
    mkdirFails := true, chmodDirFails := true, statFails := true,
    readFails := true, writeFails := true, chmodFileFails := true }

/-- `open(uuid_file).read()`: raises when the read fault flag is set or
the file is absent (the caller only reads after an exists-check, so the
absent case is unreachable from `get_printer_uuid`). -/
def fsRead (st : FSState) : Except Unit String :=
  if st.readFails then Except.error ()
  else
    match st.fileContent with
    | some c => Except.ok c
    | none => Except.error ()

/-- `open(uuid_file, "w").write(s)`. -/
def fsWrite (st : FSState) (s : String) : Except Unit FSState :=
  if st.writeFails then Except.error ()
  else Except.ok { st with fileContent := some s }

/-- `os.chmod(uuid_file, 0o600)`. -/
def fsChmodFile (st : FSState) (m : Nat) : Except Unit FSState :=
  if st.chmodFileFails then Except.error ()
  else Except.ok { st with fileMode := m }

/-- The directory-ensure block of `get_printer_uuid` (lines 205-221):
create the config directory with mode 0o700 if missing, else tighten it
to 0o700 when group/other bits (`mode & 0o077`) are set. Every failure is
caught (`except: pass` / a logged warning) and leaves the state as it
was after the last successful operation. -/
def ensureConfigDir (st : FSState) : FSState :=
  if st.dirExists then
    -- stat + conditional chmod, one enclosing try/except
    if st.statFails then st
    else if st.dirMode &&& 63 ≠ 0 then
      (if st.chmodDirFails then st else { st with dirMode := 448 })
    else st
  else
    -- makedirs, then chmod in its own inner try/except
    if st.mkdirFails then st
    else if st.chmodDirFails then { st with dirExists := true }
    else { st with dirExists := true, dirMode := 448 }

/-- Lines 232-244: write the freshly generated UUID, best effort; the
chmod and the write each have their failures swallowed, and the fresh
value is returned whether or not persistence succeeded. -/
def persistFresh (st : FSState) (new_uuid : String) : String × FSState :=
  match fsWrite st new_uuid with
  | Except.ok st1 =>
    match fsChmodFile st1 384 with
    | Except.ok st2 => (new_uuid, st2)
    | Except.error _ => (new_uuid, st1)
  | Except.error _ => (new_uuid, st)

/-- `get_printer_uuid()`. The nondeterministic `str(uuid.uuid1())` is the
explicit parameter `new_uuid`; the result is the returned identity and
the filesystem state after the call. Mirrors lines 205-244: ensure the
directory, return the stripped file content when the file exists and the
content is non-empty after stripping, otherwise generate and best-effort
persist a fresh value. -/
def get_printer_uuid (st0 : FSState) (new_uuid : String) : String × FSState :=
  let st := ensureConfigDir st0
  match st.fileContent with
  | none => persistFresh st new_uuid
  | some _ =>
    match fsRead st with
    | Except.error _ => persistFresh st new_uuid
    | Except.ok content =>
      let existing := pyStrip content
      if existing = "" then persistFresh st new_uuid
      else (existing, st)

/-! ## Resilient transport (`_build_retrying_session` and `post_payload`,
`src/checkin/checkin.py` lines 118-133 and 262-267) -/

/-- What the backend does on one attempt: answer with an HTTP status, or
fail at the connection level (timeout, refused, reset). -/
inductive NetResult where
  | status (code : Nat) : NetResult
  | connError : NetResult

/-- The `urllib3.util.retry.Retry` configuration fields used by
`_build_retrying_session`. `total` is the retry budget: the number of
retries allowed after the initial attempt — urllib3 raises
`MaxRetryError` only when an increment would drive the counter below
zero. `backoff_factor` is in half units: `1` encodes the configured
`0.5`. -/
structure RetryConf where
  total : Nat
  backoff_factor_halves : Nat
  status_forcelist : List Nat
  allowed_methods : List String
  deriving Repr

/-- The `Retry` object built by `_build_retrying_session`. -/
def sessionRetryConf : RetryConf :=
  { total := 3
  , backoff_factor_halves := 1
  , status_forcelist := [429, 500, 502, 503, 504]
  , allowed_methods := ["GET", "POST"] }

/-- `Retry.is_retry` restricted to the configured fields: a response
status triggers a retry exactly when the method is in `allowed_methods`
and the status is in `status_forcelist`. -/
def isRetryStatus (conf : RetryConf) (method : String) (code : Nat) : Bool :=
  conf.allowed_methods.contains method && conf.status_forcelist.contains code

/-- The final result of `Session.post` / `Session.get` through the
mounted `HTTPAdapter`: a response (with the number of attempts made), or
a raised exception (`requests.RetryError` wrapping `MaxRetryError`, or a
connection error) after the recorded number of attempts. -/
inductive Outcome where
  | response (code : Nat) (attempts : Nat) : Outcome
  | failure (attempts : Nat) : Outcome
  deriving Repr, DecidableEq

/-- Number of attempts an outcome took. -/
def Outcome.attempts : Outcome → Nat
  | Outcome.response _ n => n
  | Outcome.failure n => n

/-- The urllib3 `urlopen` retry loop: make attempt number `attempt`
against `server`; on a connection error or a forcelisted status,
decrement the remaining retry budget and go again, raising
(`Outcome.failure`) when the budget is already exhausted; on any other
status, return the response. `remaining` starts at `conf.total`, so an
always-failing server is tried `conf.total + 1` times. -/
def urlopenRetry (conf : RetryConf) (method : String)
    (server : Nat → NetResult) : Nat → Nat → Outcome
  | 0, attempt =>
    match server attempt with
    | NetResult.connError => Outcome.failure (attempt + 1)
    | NetResult.status c =>
      if isRetryStatus conf method c then Outcome.failure (attempt + 1)
      else Outcome.response c (attempt + 1)
  | r + 1, attempt =>
    match server attempt with
    | NetResult.connError => urlopenRetry conf method server r (attempt + 1)
    | NetResult.status c =>
      if isRetryStatus conf method c then urlopenRetry conf method server r (attempt + 1)
      else Outcome.response c (attempt + 1)

/-- `SESSION.post(BACKEND_URL, json=payload, timeout=DEFAULT_TIMEOUT)`:
the retry loop with the session's `Retry` configuration, method `POST`,
full retry budget, counting attempts from 0. -/
def SESSION_post (server : Nat → NetResult) : Outcome :=
  urlopenRetry sessionRetryConf "POST" server sessionRetryConf.total 0

/-- What the orchestrator records about one delivery (the spec's
`DeliveryOutcome`): the `logger.info` line carries the final status, the
`logger.error` line carries the exception text. -/
structure DeliveryOutcome where
  succeeded : Bool
  httpStatus : Option Nat
  errorDetail : Option String
  deriving Repr, DecidableEq

/-- `requests` surface of `SESSION.post`: a response object, or a raised
exception message. -/
def requests_post (server : Nat → NetResult) : Except String Nat :=
  match SESSION_post server with
  | Outcome.response c _ => Except.ok c
  | Outcome.failure _ => Except.error "Max retries exceeded"

/-- `post_payload(payload, logger)` (lines 262-267): the whole network
call sits inside `try/except Exception`, so the function always returns
a recorded outcome — an info log with the response status, or an error
log with the exception detail — and never propagates a fault. -/
def post_payload (server : Nat → NetResult) : DeliveryOutcome :=
  match requests_post server with
  | Except.ok c =>
    { succeeded := true, httpStatus := some c, errorDetail := none }
  | Except.error e =>
    { succeeded := false, httpStatus := none, errorDetail := some e }

/-! ## Orchestration (`main`, `src/checkin/checkin.py` lines 270-303,
from payload build to delivery) -/

/-- How one check-in cycle ends: validation failure (logged, then
`return` from `main`), or completion with a recorded delivery outcome.
Both are normal returns of `main`, so the process exits 0 either way. -/
inductive CycleResult where
  | validationFailed (msg : String) : CycleResult
  | completed (outcome : DeliveryOutcome) : CycleResult
  deriving Repr, DecidableEq

/-- One cycle's observable result together with whether the POST to the
backend was ever attempted. -/
structure CycleTrace where
  result : CycleResult
  postAttempted : Bool
  deriving Repr, DecidableEq

/-- Lines 296-303 of `main`: build the payload, validate it, and only on
successful validation hand it to `post_payload`. A validation error is
caught, logged, and ends the cycle with no network call. -/
def main_run (env_info : List (String × Json)) (printer_uuid : String)
    (now : Int) (server : Nat → NetResult) : CycleTrace :=
  let payload := build_checkin_payload env_info printer_uuid now
  match validate_schema payload PAYLOAD_SCHEMA with
  | Except.error e => { result := CycleResult.validationFailed e, postAttempted := false }
  | Except.ok _ =>
    { result := CycleResult.completed (post_payload server), postAttempted := true }

/-! ## Helper lemmas -/

/-- The directory-ensure step only ever touches the directory fields of
the filesystem state. -/
theorem ensureConfigDir_shape (st : FSState) :
    ∃ d m, ensureConfigDir st = { st with dirExists := d, dirMode := m } := by
  unfold ensureConfigDir
  split_ifs <;> exact ⟨_, _, rfl⟩

theorem ensureConfigDir_fileContent (st : FSState) :
    (ensureConfigDir st).fileContent = st.fileContent := by
  obtain ⟨d, m, h⟩ := ensureConfigDir_shape st
  rw [h]

theorem ensureConfigDir_readFails (st : FSState) :
    (ensureConfigDir st).readFails = st.readFails := by
  obtain ⟨d, m, h⟩ := ensureConfigDir_shape st
  rw [h]

theorem ensureConfigDir_writeFails (st : FSState) :
    (ensureConfigDir st).writeFails = st.writeFails := by
  obtain ⟨d, m, h⟩ := ensureConfigDir_shape st
  rw [h]

/-- The fresh-identity path always hands back the freshly generated
value, whether or not the write and chmod succeeded. -/
theorem persistFresh_fst (st : FSState) (u : String) :
    (persistFresh st u).1 = u := by
  unfold persistFresh fsWrite fsChmodFile
  by_cases h1 : st.writeFails = true <;> by_cases h2 : st.chmodFileFails = true <;>
    simp [h1, h2]

/-- When the write succeeds, the fresh value is on disk afterwards and
the fault flags are untouched. -/
theorem persistFresh_snd (st : FSState) (u : String) (hw : st.writeFails = false) :
    (persistFresh st u).2.fileContent = some u ∧
    (persistFresh st u).2.readFails = st.readFails := by
  unfold persistFresh fsWrite fsChmodFile
  by_cases h2 : st.chmodFileFails = true <;> simp [hw, h2]

/-- Read path of `get_printer_uuid`: a readable file whose content is
non-empty after stripping yields the stripped content, with no
constraint on the content's format. -/
theorem get_printer_uuid_reads (st : FSState) (content u : String)
    (hc : st.fileContent = some content) (hr : st.readFails = false)
    (hne : pyStrip content ≠ "") :
    (get_printer_uuid st u).1 = pyStrip content := by
  obtain ⟨d, m, hshape⟩ := ensureConfigDir_shape st
  unfold get_printer_uuid
  rw [hshape]
  simp [fsRead, hc, hr, hne]

/-- Fresh path of `get_printer_uuid`: with no usable stored value the
call returns the freshly generated identifier. -/
theorem get_printer_uuid_fresh (st : FSState) (u : String)
    (hmiss : st.fileContent = none ∨ st.readFails = true ∨
      (∃ c, st.fileContent = some c ∧ pyStrip c = "")) :
    (get_printer_uuid st u).1 = u := by
  obtain ⟨d, m, hshape⟩ := ensureConfigDir_shape st
  unfold get_printer_uuid
  rw [hshape]
  rcases hmiss with hnone | hread | ⟨c, hc, hstrip⟩
  · simp [hnone, persistFresh_fst]
  · rcases hc : st.fileContent with _ | c
    · simp [hc, persistFresh_fst]
    · simp [hc, fsRead, hread, persistFresh_fst]
  · by_cases hr : st.readFails = true <;> simp [hc, fsRead, hr, hstrip, persistFresh_fst]

/-- A missing required key makes `checkRequired` fail. -/
theorem checkRequired_error_of_missing (fields : List (String × Json)) :
    ∀ (req : List String) (k : String), k ∈ req → jlookup fields k = none →
    ∃ e, checkRequired fields req = Except.error e := by
  intro req
  induction req with
  | nil => intro k hk _; cases hk
  | cons a rest ih =>
    intro k hk hmiss
    cases hja : jlookup fields a with
    | none => exact ⟨a ++ " is a required property", by simp [checkRequired, hja]⟩
    | some v =>
      rcases List.mem_cons.mp hk with rfl | hk2
      · rw [hmiss] at hja; cases hja
      · obtain ⟨e, he⟩ := ih k hk2 hmiss
        exact ⟨e, by simp [checkRequired, hja, he]⟩

/-- Attempt count of the retry loop is bounded by the starting attempt
index plus the retry budget plus one. -/
theorem urlopenRetry_attempts_le (conf : RetryConf) (method : String)
    (server : Nat → NetResult) :
    ∀ (r a : Nat), (urlopenRetry conf method server r a).attempts ≤ a + r + 1 := by
  intro r
  induction r with
  | zero =>
    intro a
    unfold urlopenRetry
    cases server a with
    | connError => simp [Outcome.attempts]
    | status c =>
      by_cases h : isRetryStatus conf method c = true <;> simp [h, Outcome.attempts]
  | succ r ih =>
    intro a
    unfold urlopenRetry
    cases server a with
    | connError => exact le_trans (ih (a + 1)) (by omega)
    | status c =>
      by_cases h : isRetryStatus conf method c = true
      · simpa [h] using le_trans (ih (a + 1)) (by omega : a + 1 + r + 1 ≤ a + (r + 1) + 1)
      · simp [h, Outcome.attempts]

/-! ## Claim theorems -/

/-- Claim C1, counterexample: against a backend that always answers
HTTP 503, the session built by `_build_retrying_session` makes 4
attempts before the failed outcome, not the 3 the claim states —
`Retry(total=3)` is a budget of 3 retries after the initial attempt. -/
theorem C1_counterexample :
    SESSION_post (fun _ => NetResult.status 503) = Outcome.failure 4 ∧
    ¬ (SESSION_post (fun _ => NetResult.status 503)).attempts = 3 := by
  constructor
  · rfl
  · intro h
    simp [SESSION_post, sessionRetryConf, urlopenRetry, isRetryStatus,
      Outcome.attempts] at h

/-- Claim C1, amended: the transport retry policy makes up to 4 total
attempts (1 initial + 3 retries); given a backend that always returns
HTTP status 503, exactly 4 attempts are made before a failed outcome is
returned, and no server behaviour can make it exceed 4 attempts. -/
theorem C1_retry_bound :
    SESSION_post (fun _ => NetResult.status 503) = Outcome.failure 4 ∧
    ∀ (server : Nat → NetResult), (SESSION_post server).attempts ≤ 4 := by
  constructor
  · rfl
  · intro server
    have h := urlopenRetry_attempts_le sessionRetryConf "POST" server
      sessionRetryConf.total 0
    simpa [SESSION_post, sessionRetryConf] using h

/-- Claim C2: identity retrieval is idempotent — when the storage
location is readable and writable (so that the second call finds the
file written by the first), calling `get_printer_uuid` twice returns the
same value both times, and that value is non-empty. The hypotheses on
the fresh value hold of every `str(uuid.uuid1())`: non-empty and free of
leading/trailing whitespace. -/
theorem C2_identity_idempotent (st : FSState) (u1 u2 : String)
    (hr : st.readFails = false) (hw : st.writeFails = false)
    (hu : u1 ≠ "") (hsu : pyStrip u1 = u1) :
    (get_printer_uuid (get_printer_uuid st u1).2 u2).1 = (get_printer_uuid st u1).1 ∧
    (get_printer_uuid st u1).1 ≠ "" := by
  obtain ⟨d, m, hshape⟩ := ensureConfigDir_shape st
  have hfresh : ∀ st1 : FSState, st1.readFails = false → st1.writeFails = false →
      (get_printer_uuid (persistFresh st1 u1).2 u2).1 = u1 := by
    intro st1 h1r h1w
    obtain ⟨hfc, hrf⟩ := persistFresh_snd st1 u1 h1w
    have := get_printer_uuid_reads (persistFresh st1 u1).2 u1 u2 hfc
      (by rw [hrf, h1r]) (by rw [hsu]; exact hu)
    rwa [hsu] at this
  rcases hc : st.fileContent with _ | c
  · -- no stored file: the first call persists the fresh value
    have e1 : get_printer_uuid st u1 = persistFresh (ensureConfigDir st) u1 := by
      unfold get_printer_uuid
      rw [hshape]
      simp [hc]
    rw [e1, persistFresh_fst]
    refine ⟨?_, hu⟩
    exact hfresh (ensureConfigDir st) (by rw [hshape]; exact hr)
      (by rw [hshape]; exact hw)
  · by_cases hstrip : pyStrip c = ""
    · -- whitespace-only stored value: treated as corrupt, fresh value written
      have e1 : get_printer_uuid st u1 = persistFresh (ensureConfigDir st) u1 := by
        unfold get_printer_uuid
        rw [hshape]
        simp [hc, fsRead, hr, hstrip]
      rw [e1, persistFresh_fst]
      refine ⟨?_, hu⟩
      exact hfresh (ensureConfigDir st) (by rw [hshape]; exact hr)
        (by rw [hshape]; exact hw)
    · -- a usable stored value: both calls return it
      have e1 : get_printer_uuid st u1 = (pyStrip c, ensureConfigDir st) := by
        unfold get_printer_uuid
        rw [hshape]
        simp [hc, fsRead, hr, hstrip]
      rw [e1]
      refine ⟨?_, hstrip⟩
      exact get_printer_uuid_reads (ensureConfigDir st) c u2
        (by rw [hshape]; exact hc) (by rw [hshape]; exact hr) hstrip

/-- Claim C3: if the identity storage location is unusable — the file is
absent or unreadable, and any of directory creation, chmod, stat, file
write may fail (all fault flags are unconstrained) — `get_printer_uuid`
still returns the non-empty freshly generated identifier; being a total
function of the filesystem state, it raises nothing. -/
theorem C3_identity_fallback (st : FSState) (u : String) (hu : u ≠ "")
    (hmiss : st.fileContent = none ∨ st.readFails = true) :
    (get_printer_uuid st u).1 = u ∧ (get_printer_uuid st u).1 ≠ "" := by
  have h := get_printer_uuid_fresh st u (by tauto)
  exact ⟨h, by rw [h]; exact hu⟩

/-- Claim C4: schema validation round trip. For every environment dict
whose `external_ip` and `printer_status` entries are strings (error
strings included), the payload built by `build_checkin_payload` passes
`validate_schema` against `PAYLOAD_SCHEMA`; conversely, any object
payload missing one of the four required fields fails validation with an
identifiable violation. -/
theorem C4_schema_roundtrip :
    (∀ (env : List (String × Json)) (u : String) (now : Int),
        (∃ s, jlookup env "external_ip" = some (Json.str s)) →
        (∃ s, jlookup env "printer_status" = some (Json.str s)) →
        validate_schema (build_checkin_payload env u now) PAYLOAD_SCHEMA =
          Except.ok ()) ∧
    (∀ (fields : List (String × Json)) (k : String),
        k ∈ PAYLOAD_SCHEMA.required → jlookup fields k = none →
        ∃ e, validate_schema (Json.obj fields) PAYLOAD_SCHEMA = Except.error e) := by
  constructor
  · rintro env u now ⟨s1, h1⟩ ⟨s2, h2⟩
    simp [build_checkin_payload, dictGet, h1, h2, validate_schema,
      PAYLOAD_SCHEMA, checkProps, checkRequired, jlookup, typeOk]
  · intro fields k hk hmiss
    cases hp : checkProps fields PAYLOAD_SCHEMA.properties with
    | error e => exact ⟨e, by simp [validate_schema, hp]⟩
    | ok _ =>
      obtain ⟨e, he⟩ := checkRequired_error_of_missing fields
        PAYLOAD_SCHEMA.required k hk hmiss
      exact ⟨e, by simp [validate_schema, hp, he]⟩

/-- Claim C5: for every snapshot produced by `gather_env_info` (always
the three string fields), `build_checkin_payload` returns an object with
exactly the four required keys, correctly typed, whose `last_checkin` is
the clock value read at build time; the snapshot's own `last_checkin`
timestamp is never copied — changing it does not change the payload. -/
theorem C5_payload_shape (snap : EnvironmentSnapshot) (u : String) (now : Int) :
    build_checkin_payload (envToDict snap) u now =
      Json.obj
        [ ("printer_uuid", Json.str u)
        , ("external_ip", Json.str snap.external_ip)
        , ("status", Json.str snap.printer_status)
        , ("last_checkin", Json.int now) ] ∧
    ∀ t, build_checkin_payload (envToDict { snap with last_checkin := t }) u now =
      build_checkin_payload (envToDict snap) u now := by
  exact ⟨rfl, fun _ => rfl⟩

/-- Claim C6: when payload validation fails, the cycle ends with the
failure recorded and the POST to the backend is never attempted; `main`
returns normally (the error is caught), so the process still exits
cleanly. -/
theorem C6_validation_gates_post (env : List (String × Json)) (u : String)
    (now : Int) (server : Nat → NetResult) (e : String)
    (h : validate_schema (build_checkin_payload env u now) PAYLOAD_SCHEMA =
      Except.error e) :
    main_run env u now server =
      { result := CycleResult.validationFailed e, postAttempted := false } := by
  simp [main_run, h]

/-- Claim C7: non-transient HTTP responses are not retried — a backend
answering 404 sees exactly 1 attempt, and more generally any first
response whose status is outside the forcelist {429, 500, 502, 503, 504}
is returned after exactly 1 attempt. -/
theorem C7_no_retry_nontransient :
    SESSION_post (fun _ => NetResult.status 404) = Outcome.response 404 1 ∧
    ∀ (server : Nat → NetResult) (c : Nat),
      server 0 = NetResult.status c →
      sessionRetryConf.status_forcelist.contains c = false →
      SESSION_post server = Outcome.response c 1 := by
  constructor
  · rfl
  · intro server c h0 hc
    simp [SESSION_post, sessionRetryConf, urlopenRetry, h0, isRetryStatus,
      sessionRetryConf] at hc ⊢
    simp [hc]

/-- Claim C8: the transport component never raises an uncaught fault —
for every server behaviour, `post_payload` returns a recorded outcome:
the response status when a response arrived, or a failure outcome
carrying the error detail when the session raised (retries exhausted or
connection failure). -/
theorem C8_transport_never_raises (server : Nat → NetResult) :
    (∃ c n, SESSION_post server = Outcome.response c n ∧
        post_payload server =
          { succeeded := true, httpStatus := some c, errorDetail := none }) ∨
    (∃ n, SESSION_post server = Outcome.failure n ∧
        post_payload server =
          { succeeded := false, httpStatus := none,
            errorDetail := some "Max retries exceeded" }) := by
  cases h : SESSION_post server with
  | response c n => exact Or.inl ⟨c, n, rfl, by simp [post_payload, requests_post, h]⟩
  | failure n => exact Or.inr ⟨n, rfl, by simp [post_payload, requests_post, h]⟩

/-- Claim C9, counterexample: the identifier file exists with the
non-empty content `"a\n"`, yet `get_printer_uuid` does not return that
stored content verbatim — the code returns `f.read().strip()`, here
`"a"`. -/
theorem C9_counterexample :
    (readyFS (some "a\n")).fileContent = some "a\n" ∧ "a\n" ≠ "" ∧
    (get_printer_uuid (readyFS (some "a\n")) "fresh-id").1 ≠ "a\n" := by
  exact ⟨rfl, by decide, by decide⟩

/-- Claim C9, amended: when the identifier file exists and its content
is non-empty after stripping leading/trailing whitespace,
`get_printer_uuid` returns the stripped content, with no re-validation
of its format — a stored non-UUID value is still returned as the
identity. -/
theorem C9_returns_stored_stripped (st : FSState) (content u : String)
    (hc : st.fileContent = some content) (hr : st.readFails = false)
    (hne : pyStrip content ≠ "") :
    (get_printer_uuid st u).1 = pyStrip content :=
  get_printer_uuid_reads st content u hc hr hne

/-- Claim C10: the schema places no restriction on unlisted properties,
so any object carrying the four required fields with correct types
passes validation, extra fields included. -/
theorem C10_extra_keys_allowed (fields : List (String × Json))
    (u ip stext : String) (n : Int)
    (h1 : jlookup fields "printer_uuid" = some (Json.str u))
    (h2 : jlookup fields "external_ip" = some (Json.str ip))
    (h3 : jlookup fields "status" = some (Json.str stext))
    (h4 : jlookup fields "last_checkin" = some (Json.int n)) :
    validate_schema (Json.obj fields) PAYLOAD_SCHEMA = Except.ok () := by
  simp [validate_schema, PAYLOAD_SCHEMA, checkProps, checkRequired,
    h1, h2, h3, h4, typeOk]

/-! ## Witnesses -/

/-- Witness for C2 at a concrete empty storage location and a concrete
UUID1-shaped fresh value. -/
theorem C2_witness :
    (get_printer_uuid (get_printer_uuid (readyFS none)
        "3f2a8a6e-0000-11ee-be56-0242ac120002").2 "other-uuid").1 =
      (get_printer_uuid (readyFS none) "3f2a8a6e-0000-11ee-be56-0242ac120002").1 ∧
    (get_printer_uuid (readyFS none) "3f2a8a6e-0000-11ee-be56-0242ac120002").1 ≠ "" :=
  C2_identity_idempotent (readyFS none) "3f2a8a6e-0000-11ee-be56-0242ac120002"
    "other-uuid" rfl rfl (by decide) (by decide)

/-- Witness for C3 at a storage location where every operation fails. -/
theorem C3_witness :
    (get_printer_uuid brokenFS "fresh-uuid").1 = "fresh-uuid" ∧
    (get_printer_uuid brokenFS "fresh-uuid").1 ≠ "" :=
  C3_identity_fallback brokenFS "fresh-uuid" (by decide) (Or.inl rfl)

/-- Witness for C4: a snapshot with an error-string field validates; a
payload missing `external_ip` fails with an identifiable violation. -/
theorem C4_witness :
    validate_schema (build_checkin_payload
      [ ("external_ip", Json.str "Error: timeout")
      , ("printer_status", Json.str "OK") ] "abc-123" 1700000000)
      PAYLOAD_SCHEMA = Except.ok () ∧
    ∃ e, validate_schema (Json.obj [("printer_uuid", Json.str "abc-123")])
      PAYLOAD_SCHEMA = Except.error e :=
  ⟨C4_schema_roundtrip.1 [ ("external_ip", Json.str "Error: timeout")
      , ("printer_status", Json.str "OK") ] "abc-123" 1700000000
      ⟨"Error: timeout", rfl⟩ ⟨"OK", rfl⟩,
   C4_schema_roundtrip.2 [("printer_uuid", Json.str "abc-123")] "external_ip"
      (by decide) rfl⟩

/-- Witness for C5 at a concrete snapshot: the exact four-key payload,
with `last_checkin` equal to the build-time clock. -/
theorem C5_witness :
    build_checkin_payload
      (envToDict ⟨"1.2.3.4", "2024-01-01T00:00:00Z", "OK"⟩) "abc-123" 1700000000 =
      Json.obj
        [ ("printer_uuid", Json.str "abc-123")
        , ("external_ip", Json.str "1.2.3.4")
        , ("status", Json.str "OK")
        , ("last_checkin", Json.int 1700000000) ] ∧
    ∀ t, build_checkin_payload
      (envToDict { (⟨"1.2.3.4", "2024-01-01T00:00:00Z", "OK"⟩ : EnvironmentSnapshot)
        with last_checkin := t }) "abc-123" 1700000000 =
      build_checkin_payload
        (envToDict ⟨"1.2.3.4", "2024-01-01T00:00:00Z", "OK"⟩) "abc-123" 1700000000 :=
  C5_payload_shape ⟨"1.2.3.4", "2024-01-01T00:00:00Z", "OK"⟩ "abc-123" 1700000000

/-- Witness for C6: an empty environment dict yields null fields, so
validation fails and the POST is never attempted. -/
theorem C6_witness :
    main_run [] "abc-123" 1700000000 (fun _ => NetResult.status 200) =
      { result := CycleResult.validationFailed
          "external_ip is not of the required type"
      , postAttempted := false } :=
  C6_validation_gates_post [] "abc-123" 1700000000 (fun _ => NetResult.status 200)
    "external_ip is not of the required type" rfl

/-- Witness for C7's general part at a backend answering 418. -/
theorem C7_witness :
    SESSION_post (fun _ => NetResult.status 418) = Outcome.response 418 1 :=
  C7_no_retry_nontransient.2 (fun _ => NetResult.status 418) 418 rfl (by decide)

/-- Witness for C8 at a backend that always fails at the connection
level. -/
theorem C8_witness :
    (∃ c n, SESSION_post (fun _ => NetResult.connError) = Outcome.response c n ∧
        post_payload (fun _ => NetResult.connError) =
          { succeeded := true, httpStatus := some c, errorDetail := none }) ∨
    (∃ n, SESSION_post (fun _ => NetResult.connError) = Outcome.failure n ∧
        post_payload (fun _ => NetResult.connError) =
          { succeeded := false, httpStatus := none,
            errorDetail := some "Max retries exceeded" }) :=
  C8_transport_never_raises (fun _ => NetResult.connError)

/-- Witness for the amended C9: a stored non-UUID value is returned
(stripped) as the identity. -/
theorem C9_witness :
    pyStrip "not-a-uuid\n" ≠ "" ∧
    (get_printer_uuid (readyFS (some "not-a-uuid\n")) "fresh").1 =
      pyStrip "not-a-uuid\n" :=
  ⟨by decide,
   C9_returns_stored_stripped (readyFS (some "not-a-uuid\n")) "not-a-uuid\n"
     "fresh" rfl rfl (by decide)⟩

/-- Witness for C10: a payload with all four required fields and an
extra fifth field passes validation. -/
theorem C10_witness :
    validate_schema (Json.obj
      [ ("printer_uuid", Json.str "abc-123")
      , ("external_ip", Json.str "1.2.3.4")
      , ("status", Json.str "OK")
      , ("last_checkin", Json.int 1700000000)
      , ("extra_field", Json.str "ignored") ]) PAYLOAD_SCHEMA = Except.ok () :=
  C10_extra_keys_allowed
    [ ("printer_uuid", Json.str "abc-123")
    , ("external_ip", Json.str "1.2.3.4")
    , ("status", Json.str "OK")
    , ("last_checkin", Json.int 1700000000)
    , ("extra_field", Json.str "ignored") ]
    "abc-123" "1.2.3.4" "OK" 1700000000 rfl rfl rfl rfl

end TicketPrinter
